import Mathlib

/-!
Shallow embedding of `kit_converter.py` from `hydrogen_drumkit_tools`.

The program turns a YAML kit description either into a Hydrogen drumkit
archive (`create_kit`, lines 69-146) or into a preview MIDI file
(`create_midi`, lines 39-66).  The embedding below keeps the source's
structure: the velocity-range lists of lines 104-109, the note-length
quantization of line 111, the per-layer ffmpeg invocations of lines
126-137, the XML manifest of lines 77-140, the archive step of lines
141-146, and the MIDI event loop of lines 45-64.  Machine text values are
`String`s built exactly as the Python f-strings build them; milliseconds
are natural numbers; MIDI time deltas are integers (line 60 can go
negative for a zero-length instrument).
-/

namespace KitConverter

/-- One entry of the configuration's `instruments` list (see spec section 6).
`display` models `instrument.get('display')`: the key may be absent
(`create_kit` line 91 falls back to `name`; `create_midi` line 47 reads it
without a fallback).  `attributes` models `instrument.get('attributes', {})`
as an insertion-ordered string map. -/
structure Instrument where
  name : String
  display : Option String
  note : Nat
  length : Nat
  layers : List Nat
  attributes : List (String × String)
deriving Repr, DecidableEq

/-- The parsed YAML configuration mapping.  It carries both the key
`license` that the spec (section 6) declares, and the key `lincense`
that line 81 of the code actually reads (`cfg.get('lincense', '')`);
either key may simply be absent from a given YAML file, which for
`lincense` is modelled by `Option`. -/
structure Config where
  kit_code : String
  kit_name : String
  author : String
  info : String
  license : String
  lincense : Option String
  default_attributes : List (String × String)
  instruments : List Instrument
deriving Repr, DecidableEq

/-! ### Velocity-Range Calculator (lines 104-109) -/

/-- Value of the Python rendering `f"{(threshold / 127):.6f}"` in units of
10⁻⁶: `threshold / 127` rounded to the nearest multiple of 10⁻⁶.
`(2000000 * t + 127) / 254` is `floor (t * 10^6 / 127 + 1/2)`.  No tie can
occur (`2 * t * 10^6` is never an odd multiple of 127), and the rational
value `t / 127` is at least `1/254 * 10^-6` away from every rounding
boundary, far above the error of the binary double, so this equals the
decimal the code prints. -/
def fmt6 (threshold : Nat) : Nat := (2000000 * threshold + 127) / 254

/-- Decimal rendering of a multiple of 10⁻⁶ given by its numerator, with
exactly six fractional digits, e.g. `microStr 503937 = "0.503937"` and
`microStr 1000000 = "1.000000"`. -/
def microStr (m : Nat) : String :=
  let frac := toString (m % 1000000)
  toString (m / 1000000) ++ "." ++ String.mk (List.replicate (6 - frac.length) '0') ++ frac

/-- The string the code stores as a layer's `max`: `f"{(threshold / 127):.6f}"`
(line 105). -/
def fmt6Str (threshold : Nat) : String := microStr (fmt6 threshold)

/-- Line 105: `max_range_values = [f"{(threshold / 127):.6f}" for threshold in layers]`. -/
def max_range_values (layers : List Nat) : List String :=
  layers.map (fun threshold => fmt6Str threshold)

/-- Lines 106-108: copy the max list, insert `"0"` at the front, pop the last. -/
def min_range_values (layers : List Nat) : List String :=
  "0" :: (max_range_values layers).dropLast

/-- Line 109: `zip(min_range_values, max_range_values)`. -/
def range_values_list (layers : List Nat) : List (String × String) :=
  (min_range_values layers).zip (max_range_values layers)

/-! ### Timeline quantities (lines 50, 110-111, 138) -/

/-- Line 111: `note_length = math.ceil(sample_length / 250) * 250`, over
natural-number milliseconds (`⌈n/250⌉ = (n + 249) / 250` in ℕ). -/
def note_length (sample_length : Nat) : Nat := ((sample_length + 249) / 250) * 250

/-- The amount line 138 adds to the running offset after an instrument:
`note_length * len(layers)` — the width of the instrument's window. -/
def inst_span (inst : Instrument) : Nat := note_length inst.length * inst.layers.length

/-- The per-instrument base offsets produced by the running total of
lines 86 and 138, starting from `start`:  instrument `i` starts at
`start` plus the spans of the instruments before it. -/
def base_offsets_from (start : Nat) : List Instrument → List Nat
  | [] => []
  | inst :: rest => start :: base_offsets_from (start + inst_span inst) rest

/-- Base offsets of a whole kit (the running total starts at 0, line 86). -/
def base_offsets (insts : List Instrument) : List Nat := base_offsets_from 0 insts

/-! ### XML manifest (lines 77-140, 149-157) -/

/-- An ElementTree element: tag, text (the code only ever sets string
texts via `_add_tag`; elements it leaves untouched are modelled with
text `""`), children in append order. -/
inductive XmlNode where
  | node (tag : String) (text : String) (children : List XmlNode)
deriving Repr

def XmlNode.tag : XmlNode → String
  | .node t _ _ => t

def XmlNode.text : XmlNode → String
  | .node _ s _ => s

def XmlNode.children : XmlNode → List XmlNode
  | .node _ _ c => c

/-- Helper `_add_tag` (lines 154-157): a child element with the given tag and text. -/
def add_tag (tag value : String) : XmlNode := .node tag value []

/-- Python `dict.copy()` followed by `dict.update(u)` on insertion-ordered
string maps (lines 99-100): keys already present keep their position and
take the new value, new keys are appended in their own order; the map
`d` being copied is left untouched. -/
def dictUpdate (d u : List (String × String)) : List (String × String) :=
  d.map (fun kv => (u.lookup kv.1).elim kv (fun v => (kv.1, v)))
    ++ u.filter (fun kv => (d.lookup kv.1).isNone)

/-- Lines 99-100: `instrument_attributes = defaults.copy()` then
`instrument_attributes.update(instrument.get('attributes', {}))`. -/
def instrument_attributes (defaults : List (String × String)) (inst : Instrument) :
    List (String × String) :=
  dictUpdate defaults inst.attributes

/-- Helper `_set_instrument_attr` (lines 149-151): one child tag per attribute,
in mapping order. -/
def set_instrument_attr (attrs : List (String × String)) : List XmlNode :=
  attrs.map (fun kv => add_tag kv.1 kv.2)

/-- Line 116: `f'{name}_L{layer_id:02}.flac'` (zero-padded to width 2). -/
def flac_kit_file (name : String) (layer_id : Nat) : String :=
  name ++ "_L" ++ (if layer_id < 10 then "0" ++ toString layer_id else toString layer_id)
    ++ ".flac"

/-- The ffmpeg invocation of lines 127-136, keeping the two numeric
parameters in milliseconds (the command line renders `start / 1000` and
`sample_length / 1000` as fractional seconds). -/
structure FfmpegCmd where
  start_ms : Nat
  duration_ms : Nat
  input : String
  output : String
deriving Repr, DecidableEq

/-- The `layer` element of lines 119-124. -/
def layer_xml (file : String) (rv : String × String) : XmlNode :=
  .node "layer" ""
    [add_tag "filename" file, add_tag "min" rv.1, add_tag "max" rv.2,
     add_tag "gain" "1", add_tag "pitch" "0"]

/-- The inner layer loop of `create_kit` (lines 113-137): for each
`(idx, range_values)` of `enumerate(range_values_list)` produce the layer
element, the ffmpeg command (`start = start_offset + note_length * idx`,
duration = the instrument's declared `sample_length`), and the tool's
return code — which line 137 (`subprocess.run(cmd)`, no `check`) computes
and then discards. -/
def layer_loop (tool : FfmpegCmd → Int) (wav : String) (inst : Instrument)
    (start_offset : Nat) : List (XmlNode × FfmpegCmd × Int) :=
  (range_values_list inst.layers).enum.map (fun p =>
    let file := flac_kit_file inst.name (p.1 + 1)
    let cmd : FfmpegCmd :=
      { start_ms := start_offset + note_length inst.length * p.1,
        duration_ms := inst.length, input := wav, output := file }
    (layer_xml file p.2, cmd, tool cmd))

/-- The `instrument` element of lines 95-101 together with its appended
layer children: id, display name (falling back to `name`, line 91), MIDI
note, the merged attribute tags, then the layers. -/
def instrument_xml (defaults : List (String × String)) (idx : Nat) (inst : Instrument)
    (layer_nodes : List XmlNode) : XmlNode :=
  .node "instrument" ""
    ([add_tag "id" (toString idx), add_tag "name" (inst.display.getD inst.name),
      add_tag "midiOutNote" (toString inst.note)]
      ++ set_instrument_attr (instrument_attributes defaults inst)
      ++ layer_nodes)

/-- The outer instrument loop of `create_kit` (lines 89-138), threading
the running `start_offset` (advanced by `note_length * len(layers)`,
line 138) and the `enumerate` index used as the instrument id. -/
def instruments_loop (tool : FfmpegCmd → Int) (wav : String)
    (defaults : List (String × String)) :
    Nat → Nat → List Instrument → List XmlNode × List (FfmpegCmd × Int)
  | _, _, [] => ([], [])
  | idx, start_offset, inst :: rest =>
    let ld := layer_loop tool wav inst start_offset
    let rest_out := instruments_loop tool wav defaults (idx + 1)
      (start_offset + note_length inst.length * inst.layers.length) rest
    (instrument_xml defaults idx inst (ld.map (fun x => x.1)) :: rest_out.1,
     ld.map (fun x => x.2) ++ rest_out.2)

/-- Function `create_kit` (lines 69-140), as the manifest tree plus the sequence of
ffmpeg invocations with their (ignored) return codes.  Line 81 stores under
the `license` tag the value of the config key `lincense` — not `license` —
defaulting to the empty string. -/
def create_kit (cfg : Config) (tool : FfmpegCmd → Int) :
    XmlNode × List (FfmpegCmd × Int) :=
  let wav := "media/" ++ cfg.kit_code ++ ".wav"
  let body := instruments_loop tool wav cfg.default_attributes 0 0 cfg.instruments
  (XmlNode.node "drumkit_info" ""
    [add_tag "name" cfg.kit_name, add_tag "author" cfg.author,
     add_tag "info" cfg.info, add_tag "license" ((cfg.lincense).getD ""),
     XmlNode.node "instrumentList" "" body.1],
   body.2)

/-- The instrument elements of a manifest: the children of its fifth
child, the `instrumentList` element (cf. lines 84 and 95). -/
def manifest_instruments (manifest : XmlNode) : List XmlNode :=
  ((manifest.children.get? 4).getD (XmlNode.node "" "" [])).children

/-! ### Archive packaging (lines 141-146) -/

/-- Filesystem operations of the packaging step. -/
inductive ArchiveOp where
  | unlink (path : String)
  | openCreate (path : String)
  | addDir (src arcname : String)
  | closeTar
deriving Repr, DecidableEq

/-- Line 141: `os.path.join(KITS, f'{kit_code}.h2drumkit')`. -/
def archive_path (kit_code : String) : String := "kits/" ++ kit_code ++ ".h2drumkit"

/-- Lines 141-146: if a file already exists at the archive path it is
unlinked; then `tarfile.open(path, 'x')` (exclusive creation — it raises
`FileExistsError` if the path still exists), the staging directory is
added under the kit code, and the tar is closed.  The state tracked is
whether a file exists at the archive path; the result is the operation
trace and the final existence. -/
def package_kit (kit_code : String) (preexisting : Bool) :
    Except String (List ArchiveOp × Bool) :=
  let path := archive_path kit_code
  let step1 := if preexisting then ([ArchiveOp.unlink path], false) else ([], preexisting)
  if step1.2 then .error "FileExistsError"
  else .ok (step1.1 ++ [.openCreate path, .addDir kit_code kit_code, .closeTar], true)

/-- The operation trace of a packaging run (empty if it raised). -/
def archive_ops (r : Except String (List ArchiveOp × Bool)) : List ArchiveOp :=
  match r with
  | .ok x => x.1
  | .error _ => []

/-- Whether an operation creates the archive file. -/
def is_open_create : ArchiveOp → Bool
  | .openCreate _ => true
  | _ => false

/-! ### MIDI preview (`create_midi`, lines 39-66) -/

/-- The track events `create_midi` appends (mido messages), with MIDI
time deltas as integers. -/
inductive MidiEvent where
  | time_signature (numerator denominator : Nat)
  | set_tempo (tempo : Nat)
  | note_on (channel note velocity : Nat) (time : Int)
  | note_off (channel note : Nat) (time : Int)
  | marker (text : String)
deriving Repr, DecidableEq

/-- The layer loop of lines 52-60 for one instrument: per velocity a
`note_on` at the current offset, after the first `note_on` the marker with
the instrument's display name (`MetaMessage('marker', text=name)` raises
inside mido when the `display` key is absent, since `text` is `None`),
then a `note_off` with delta 24; after every layer the offset becomes
`(eigths - 1) * 24` (line 60). -/
def midi_layer_loop (note : Nat) (display : Option String) (eigths : Nat) :
    Nat → Int → List Nat → Except String (List MidiEvent × Int)
  | _, start_offset, [] => .ok ([], start_offset)
  | layer_idx, start_offset, velocity :: rest =>
    let mk := fun (markerEvents : List MidiEvent) =>
      match midi_layer_loop note display eigths (layer_idx + 1)
          (((eigths : Int) - 1) * 24) rest with
      | .error e => .error e
      | .ok tail =>
        .ok (MidiEvent.note_on 9 note velocity start_offset :: markerEvents
              ++ [MidiEvent.note_off 9 note 24] ++ tail.1, tail.2)
    if layer_idx = 0 then
      match display with
      | some n => mk [MidiEvent.marker n]
      | none => .error "TypeError: marker text must be a string"
    else mk []

/-- The instrument loop of lines 46-60: `eigths = ceil(length / 250)`
(line 50); `note` is (re)bound for every instrument (line 49) whether or
not it has layers. -/
def midi_instruments_loop :
    Int → Option Nat → List Instrument → Except String (List MidiEvent × Int × Option Nat)
  | start_offset, note?, [] => .ok ([], start_offset, note?)
  | start_offset, _, inst :: rest =>
    match midi_layer_loop inst.note inst.display ((inst.length + 249) / 250)
        0 start_offset inst.layers with
    | .error e => .error e
    | .ok out =>
      match midi_instruments_loop out.2 (some inst.note) rest with
      | .error e => .error e
      | .ok tail => .ok (out.1 ++ tail.1, tail.2)

/-- Function `create_midi` (lines 39-64): the 4/4 time signature and the 120 BPM
tempo (`bpm2tempo 120 = 500000`) first, then the instrument loop, then a
final `note_off` at `start_offset + 24` using the variable `note` — which
was never assigned when the instrument list is empty, so line 61 raises
`NameError` — and the closing `"End"` marker. -/
def create_midi (cfg : Config) : Except String (List MidiEvent) :=
  match midi_instruments_loop 0 none cfg.instruments with
  | .error e => .error e
  | .ok body =>
    match body.2.2 with
    | none => .error "NameError: note is not defined"
    | some note =>
      .ok ([MidiEvent.time_signature 4 4, MidiEvent.set_tempo 500000]
            ++ body.1
            ++ [MidiEvent.note_off 9 note (body.2.1 + 24), MidiEvent.marker "End"])

/-- A MIDI event with its time delta erased (used to state claims that
constrain only the kind, note and velocity of the events). -/
def eventShape : MidiEvent → MidiEvent
  | .note_on c n v _ => .note_on c n v 0
  | .note_off c n _ => .note_off c n 0
  | e => e

/-! ### Helper lemmas -/

lemma enum_getElem? (l : List α) (k : Nat) :
    l.enum[k]? = (l[k]?).map (fun a => (k, a)) := by
  rw [List.getElem?_enum]

lemma max_range_values_length (layers : List Nat) :
    (max_range_values layers).length = layers.length := by
  simp [max_range_values]

lemma min_range_values_length (layers : List Nat) :
    (min_range_values layers).length = 1 + (layers.length - 1) := by
  simp only [min_range_values, List.length_cons, List.length_dropLast,
    max_range_values_length]
  omega

lemma range_values_list_length (layers : List Nat) :
    (range_values_list layers).length = layers.length := by
  simp only [range_values_list, List.length_zip, min_range_values_length,
    max_range_values_length]
  omega

/-- The element of `layer_loop` at index `k` is determined by the `k`-th
velocity range pair. -/
lemma layer_loop_getElem? (tool : FfmpegCmd → Int) (wav : String)
    (inst : Instrument) (start_offset k : Nat) :
    (layer_loop tool wav inst start_offset)[k]? =
      ((range_values_list inst.layers)[k]?).map (fun rv =>
        let file := flac_kit_file inst.name (k + 1)
        let cmd : FfmpegCmd :=
          { start_ms := start_offset + note_length inst.length * k,
            duration_ms := inst.length, input := wav, output := file }
        (layer_xml file rv, cmd, tool cmd)) := by
  simp only [layer_loop, List.getElem?_map, enum_getElem?, Option.map_map]
  rfl

/-- Closed form of the running base offsets of lines 86/138. -/
lemma base_offsets_from_getElem? (insts : List Instrument) : ∀ (s i : Nat),
    (base_offsets_from s insts)[i]? =
      if i < insts.length then some (s + (((insts.map inst_span).take i).sum)) else none := by
  induction insts with
  | nil => intro s i; simp [base_offsets_from]
  | cons a rest ih =>
    intro s i
    cases i with
    | zero => simp [base_offsets_from]
    | succ i =>
      simp only [base_offsets_from, List.getElem?_cons_succ, ih (s + inst_span a) i,
        List.map_cons, List.take_succ_cons, List.sum_cons, List.length_cons]
      have : i < rest.length ↔ i + 1 < rest.length + 1 := by omega
      rw [if_congr this rfl rfl]
      split
      · rw [Nat.add_assoc]
      · rfl

/-- The `i`-th instrument element produced by the outer loop is the
`instrument_xml` of the `i`-th instrument, built from the unchanged
`defaults` mapping that the loop threads through. -/
lemma instruments_loop_getElem? (tool : FfmpegCmd → Int) (wav : String)
    (d : List (String × String)) :
    ∀ (insts : List Instrument) (idx s i : Nat) (inst : Instrument),
      insts[i]? = some inst →
      ∃ s2, ((instruments_loop tool wav d idx s insts).1)[i]? =
        some (instrument_xml d (idx + i) inst
          ((layer_loop tool wav inst s2).map (fun x => x.1))) := by
  intro insts
  induction insts with
  | nil => intro idx s i inst h; simp at h
  | cons a rest ih =>
    intro idx s i inst h
    cases i with
    | zero =>
      simp only [List.getElem?_cons_zero, Option.some.injEq] at h
      subst h
      exact ⟨s, by simp [instruments_loop]⟩
    | succ i =>
      simp only [List.getElem?_cons_succ] at h
      obtain ⟨s2, hs⟩ := ih (idx + 1) (s + note_length a.length * a.layers.length) i inst h
      refine ⟨s2, ?_⟩
      have harith : idx + 1 + i = idx + (i + 1) := by omega
      rw [harith] at hs
      simp only [instruments_loop, List.getElem?_cons_succ]
      exact hs

/-! ### Claims -/

/-- C1: for every instrument, the quantized note length (line 111) is the
least multiple of 250 that is at least the declared sample length — i.e.
`ceil(sample_length / 250) * 250` — and the layer at 0-based index `k`
yields an extraction command starting at
`instrument_base_offset + note_length * k` (line 126) whose duration is
the instrument's declared sample length (line 131), not the quantized
note length. -/
theorem claim1_layer_timing (tool : FfmpegCmd → Int) (wav : String)
    (start_offset : Nat) (inst : Instrument) (k : Nat)
    (hk : k < inst.layers.length) :
    (inst.length ≤ note_length inst.length ∧ 250 ∣ note_length inst.length ∧
      ∀ m, inst.length ≤ m → 250 ∣ m → note_length inst.length ≤ m) ∧
    ∃ x, (layer_loop tool wav inst start_offset)[k]? = some x ∧
      x.2.1.start_ms = start_offset + note_length inst.length * k ∧
      x.2.1.duration_ms = inst.length := by
  refine ⟨⟨?_, dvd_mul_left 250 _, ?_⟩, ?_⟩
  · unfold note_length; omega
  · intro m hm hdvd
    obtain ⟨c, rfl⟩ := hdvd
    unfold note_length
    omega
  · have hlen : k < (range_values_list inst.layers).length := by
      rw [range_values_list_length]; exact hk
    have h := layer_loop_getElem? tool wav inst start_offset k
    rw [List.getElem?_eq_getElem hlen, Option.map_some'] at h
    exact ⟨_, h, rfl, rfl⟩

def inst1w : Instrument :=
  { name := "kick", display := some "Kick", note := 36, length := 300,
    layers := [80, 127], attributes := [] }

/-- Witness for C1 at a concrete instrument (`length = 300`, two layers,
layer index 1): the command starts at `base + 500 * 1` and lasts 300 ms,
so the spacing (500) differs from the extracted duration (300). -/
theorem claim1_witness :
    1 < inst1w.layers.length ∧
    ((inst1w.length ≤ note_length inst1w.length ∧ 250 ∣ note_length inst1w.length ∧
      ∀ m, inst1w.length ≤ m → 250 ∣ m → note_length inst1w.length ≤ m) ∧
    ∃ x, (layer_loop (fun _ => 0) "media/kit.wav" inst1w 0)[1]? = some x ∧
      x.2.1.start_ms = 0 + note_length inst1w.length * 1 ∧
      x.2.1.duration_ms = inst1w.length) :=
  ⟨by decide, claim1_layer_timing (fun _ => 0) "media/kit.wav" 0 inst1w 1 (by decide)⟩

def cfg4 : Config :=
  { kit_code := "kit4", kit_name := "Kit 4", author := "Author", info := "Info",
    license := "CC-BY-SA 4.0", lincense := none, default_attributes := [],
    instruments := [] }

/-- C4 (code bug): line 81 reads the config key `lincense`, not `license`.
For a configuration that carries `license = "CC-BY-SA 4.0"` and no
`lincense` key, the manifest's `license` child element has empty text,
which differs from the configuration's `license` value. -/
theorem claim4_license_key_typo :
    cfg4.license = "CC-BY-SA 4.0" ∧
    ((create_kit cfg4 (fun _ => 0)).1.children)[3]? =
      some (XmlNode.node "license" "" []) ∧
    (XmlNode.node "license" "" []).text ≠ cfg4.license :=
  ⟨rfl, rfl, by decide⟩

def kick5 : Instrument :=
  { name := "kick", display := some "Kick", note := 36, length := 300,
    layers := [127], attributes := [] }

def cfg5 : Config :=
  { kit_code := "kit5", kit_name := "Kit 5", author := "", info := "",
    license := "", lincense := none, default_attributes := [],
    instruments := [kick5] }

/-- C5 (code bug): line 137 runs the trimming tool without checking its
exit status.  With a tool that exits 1 on the run's only invocation, the
run still returns normally and the manifest still contains the layer
entry referencing `kick_L01.flac` — the failure is neither surfaced nor
does it abort the run, contrary to the claimed (and spec-intended)
behavior. -/
theorem claim5_tool_failure_ignored :
    ((create_kit cfg5 (fun _ => 1)).2.map (fun x => x.2)) = [1] ∧
    ∃ node, (manifest_instruments (create_kit cfg5 (fun _ => 1)).1)[0]? = some node ∧
      node.children[3]? = some (layer_xml "kick_L01.flac" ("0", "1.000000")) :=
  ⟨rfl, _, rfl, rfl⟩

def inst6 : Instrument :=
  { name := "kick", display := some "Kick", note := 36, length := 300,
    layers := [50, 100], attributes := [] }

def cfg6 : Config :=
  { kit_code := "kit6", kit_name := "Kit 6", author := "", info := "",
    license := "", lincense := none, default_attributes := [],
    instruments := [inst6] }

/-- C6 counterexample: for the single instrument with note 36 and layers
[50, 100], the events after the time-signature/tempo header do not form
the claimed sequence `marker, note_on(36,50), note_off, note_on(36,100),
note_off, marker("End")` (with any time deltas): the code appends the
first `note_on` before the marker (lines 53-57) and appends an extra
trailing `note_off` (line 61) before the `"End"` marker. -/
theorem claim6_counterexample :
    ∃ evs, create_midi cfg6 = .ok evs ∧
      (evs.drop 2).map eventShape ≠
        [MidiEvent.marker "Kick", MidiEvent.note_on 9 36 50 0,
         MidiEvent.note_off 9 36 0, MidiEvent.note_on 9 36 100 0,
         MidiEvent.note_off 9 36 0, MidiEvent.marker "End"] :=
  ⟨_, rfl, by decide⟩

/-- C6 amended: for that configuration the MIDI preview emits, after the
4/4 time signature and the 120 BPM tempo, exactly
`note_on(36,50)`, `marker("Kick")`, `note_off(36)`, `note_on(36,100)`,
`note_off(36)`, a second trailing `note_off(36)`, and `marker("End")`:
the instrument marker immediately follows (rather than precedes) the
first layer's note-on, and one extra note-off precedes the final
marker. -/
theorem claim6_amended_sequence :
    create_midi cfg6 = .ok
      [MidiEvent.time_signature 4 4, MidiEvent.set_tempo 500000,
       MidiEvent.note_on 9 36 50 0, MidiEvent.marker "Kick",
       MidiEvent.note_off 9 36 24, MidiEvent.note_on 9 36 100 24,
       MidiEvent.note_off 9 36 24, MidiEvent.note_off 9 36 48,
       MidiEvent.marker "End"] := rfl

/-- C7: for thresholds `[64, 100, 127]` the Velocity-Range Calculator
produces exactly the claimed three ranges; the first minimum is emitted
as the string `"0"`, the code's rendering of the claimed value 0.000000,
and every other bound is the threshold divided by 127 rendered with six
decimal digits. -/
theorem claim7_example_ranges :
    range_values_list [64, 100, 127] =
      [("0", "0.503937"), ("0.503937", "0.787402"), ("0.787402", "1.000000")] := by
  decide

/-- C2: for every non-empty threshold sequence the Velocity-Range
Calculator produces exactly one range per threshold; every maximum is its
threshold divided by 127 rendered with six decimal digits (`fmt6Str`);
the minima are `"0"` (the rendering of 0) followed by the maxima shifted
by one, so every later minimum equals the previous maximum and the
ranges are contiguous and gapless; and the last maximum is the last
threshold divided by 127. -/
theorem claim2_velocity_ranges (ts : List Nat) (hne : ts ≠ []) :
    (range_values_list ts).length = ts.length ∧
    (range_values_list ts).map Prod.snd = ts.map fmt6Str ∧
    (range_values_list ts).map Prod.fst = "0" :: (ts.map fmt6Str).dropLast ∧
    (∀ k a b, (range_values_list ts)[k]? = some a →
      (range_values_list ts)[k + 1]? = some b → b.1 = a.2) ∧
    ((range_values_list ts).getLast?).map Prod.snd = (ts.getLast?).map fmt6Str := by
  have hpos : 0 < ts.length := List.length_pos.mpr hne
  have hminlen : (min_range_values ts).length = ts.length := by
    rw [min_range_values_length]; omega
  have hle1 : (max_range_values ts).length ≤ (min_range_values ts).length := by
    rw [hminlen, max_range_values_length]
  have hle2 : (min_range_values ts).length ≤ (max_range_values ts).length := by
    rw [hminlen, max_range_values_length]
  have hsnd : (range_values_list ts).map Prod.snd = ts.map fmt6Str := by
    rw [range_values_list, List.map_snd_zip _ _ hle1, max_range_values]
  refine ⟨range_values_list_length ts, hsnd, ?_, ?_, ?_⟩
  · rw [range_values_list, List.map_fst_zip _ _ hle2, min_range_values, max_range_values]
  · intro k a b ha hb
    rw [range_values_list, List.getElem?_zip_eq_some] at ha hb
    obtain ⟨ha1, ha2⟩ := ha
    obtain ⟨hb1, hb2⟩ := hb
    rw [min_range_values, List.getElem?_cons_succ, List.getElem?_dropLast] at hb1
    split at hb1
    · rw [ha2] at hb1
      exact (Option.some_inj.mp hb1).symm
    · exact absurd hb1 (by simp)
  · calc (range_values_list ts).getLast?.map Prod.snd
        = ((range_values_list ts).map Prod.snd).getLast? := (List.getLast?_map _ _).symm
      _ = (ts.map fmt6Str).getLast? := by rw [hsnd]
      _ = (ts.getLast?).map fmt6Str := List.getLast?_map _ _

/-- Witness for C2 at the thresholds `[64, 100, 127]`. -/
theorem claim2_witness :
    ([64, 100, 127] : List Nat) ≠ [] ∧
    ((range_values_list [64, 100, 127]).length = ([64, 100, 127] : List Nat).length ∧
     (range_values_list [64, 100, 127]).map Prod.snd =
       ([64, 100, 127] : List Nat).map fmt6Str ∧
     (range_values_list [64, 100, 127]).map Prod.fst =
       "0" :: (([64, 100, 127] : List Nat).map fmt6Str).dropLast ∧
     (∀ k a b, (range_values_list [64, 100, 127])[k]? = some a →
       (range_values_list [64, 100, 127])[k + 1]? = some b → b.1 = a.2) ∧
     ((range_values_list [64, 100, 127]).getLast?).map Prod.snd =
       (([64, 100, 127] : List Nat).getLast?).map fmt6Str) :=
  ⟨by decide, claim2_velocity_ranges [64, 100, 127] (by decide)⟩

/-- C3: for instruments with positive sample lengths and non-empty layer
lists, consecutive base offsets of the running total of lines 86/138 are
strictly increasing with spacing exactly `inst_span`
(`= ceil(length/250)*250 * layer_count`); every extraction command issued
for an instrument based at `a` stays inside the window
`[a, a + inst_span)`; and consecutive windows are disjoint. -/
theorem claim3_timeline_disjoint (tool : FfmpegCmd → Int) (wav : String)
    (insts : List Instrument)
    (hlen : ∀ inst ∈ insts, 0 < inst.length)
    (hlay : ∀ inst ∈ insts, inst.layers ≠ []) :
    (∀ i inst a b, insts[i]? = some inst →
        (base_offsets insts)[i]? = some a → (base_offsets insts)[i + 1]? = some b →
        b = a + inst_span inst ∧ a < b) ∧
    (∀ (i : Nat) (inst : Instrument) (a k : Nat) (x : XmlNode × FfmpegCmd × Int),
        insts[i]? = some inst → (base_offsets insts)[i]? = some a →
        (layer_loop tool wav inst a)[k]? = some x →
        a ≤ x.2.1.start_ms ∧
          x.2.1.start_ms + x.2.1.duration_ms ≤ a + inst_span inst) ∧
    (∀ i inst a b, insts[i]? = some inst →
        (base_offsets insts)[i]? = some a → (base_offsets insts)[i + 1]? = some b →
        a + inst_span inst ≤ b) := by
  have hbase : ∀ i a, (base_offsets insts)[i]? = some a →
      i < insts.length ∧ a = ((insts.map inst_span).take i).sum := by
    intro i a h
    rw [base_offsets, base_offsets_from_getElem?] at h
    split at h
    · refine ⟨‹_›, ?_⟩
      have := Option.some_inj.mp h
      omega
    · exact absurd h (by simp)
  have key : ∀ i inst a b, insts[i]? = some inst →
      (base_offsets insts)[i]? = some a → (base_offsets insts)[i + 1]? = some b →
      b = a + inst_span inst ∧ a < b := by
    intro i inst a b hi ha hb
    obtain ⟨hilt, ha'⟩ := hbase i a ha
    obtain ⟨_, hb'⟩ := hbase (i + 1) b hb
    have hmap : (insts.map inst_span)[i]? = some (inst_span inst) := by
      rw [List.getElem?_map, hi, Option.map_some']
    have htake : ((insts.map inst_span).take (i + 1)).sum
        = ((insts.map inst_span).take i).sum + inst_span inst := by
      rw [List.take_succ, hmap]
      simp
    have hspan : 0 < inst_span inst := by
      have h2 := hlay inst (List.getElem?_mem hi)
      have h3 : 0 < inst.layers.length := List.length_pos.mpr h2
      have h1 := hlen inst (List.getElem?_mem hi)
      have h4 : 0 < note_length inst.length := by unfold note_length; omega
      exact Nat.mul_pos h4 h3
    omega
  refine ⟨key, ?_, ?_⟩
  · intro i inst a k x hi ha hx
    obtain ⟨hklen, _⟩ := List.getElem?_eq_some.mp hx
    have hk : k < inst.layers.length := by
      simpa [layer_loop, range_values_list_length] using hklen
    have hlen2 : k < (range_values_list inst.layers).length := by
      rw [range_values_list_length]; exact hk
    have h := layer_loop_getElem? tool wav inst a k
    rw [List.getElem?_eq_getElem hlen2, Option.map_some', hx] at h
    have hxeq := Option.some_inj.mp h
    subst hxeq
    have hdur : inst.length ≤ note_length inst.length := by unfold note_length; omega
    refine ⟨Nat.le_add_right a _, ?_⟩
    show a + note_length inst.length * k + inst.length ≤ a + inst_span inst
    have hmul : note_length inst.length * k + inst.length
        ≤ note_length inst.length * inst.layers.length := by
      have hk1 : k + 1 ≤ inst.layers.length := hk
      calc note_length inst.length * k + inst.length
          ≤ note_length inst.length * k + note_length inst.length := by omega
        _ = note_length inst.length * (k + 1) := by ring
        _ ≤ note_length inst.length * inst.layers.length :=
            Nat.mul_le_mul_left _ hk1
    unfold inst_span
    omega
  · intro i inst a b hi ha hb
    have := (key i inst a b hi ha hb).1
    omega

def kick3w : Instrument :=
  { name := "kick", display := some "Kick", note := 36, length := 300,
    layers := [80, 127], attributes := [] }

def snare3w : Instrument :=
  { name := "snare", display := some "Snare", note := 38, length := 251,
    layers := [127], attributes := [] }

/-- Witness for C3 on a concrete two-instrument kit. -/
theorem claim3_witness :
    (∀ inst ∈ [kick3w, snare3w], 0 < inst.length) ∧
    (∀ inst ∈ [kick3w, snare3w], inst.layers ≠ []) ∧
    ((∀ i inst a b, [kick3w, snare3w][i]? = some inst →
        (base_offsets [kick3w, snare3w])[i]? = some a →
        (base_offsets [kick3w, snare3w])[i + 1]? = some b →
        b = a + inst_span inst ∧ a < b) ∧
     (∀ (i : Nat) (inst : Instrument) (a k : Nat) (x : XmlNode × FfmpegCmd × Int),
        [kick3w, snare3w][i]? = some inst →
        (base_offsets [kick3w, snare3w])[i]? = some a →
        (layer_loop (fun _ => 0) "media/kit.wav" inst a)[k]? = some x →
        a ≤ x.2.1.start_ms ∧
          x.2.1.start_ms + x.2.1.duration_ms ≤ a + inst_span inst) ∧
     (∀ i inst a b, [kick3w, snare3w][i]? = some inst →
        (base_offsets [kick3w, snare3w])[i]? = some a →
        (base_offsets [kick3w, snare3w])[i + 1]? = some b →
        a + inst_span inst ≤ b)) :=
  ⟨by decide, by decide,
    claim3_timeline_disjoint (fun _ => 0) "media/kit.wav" [kick3w, snare3w]
      (by decide) (by decide)⟩

/-- C8: a pre-existing file at the archive path is unlinked first and is
not an error; with or without a pre-existing file the packaging step
succeeds, ends with the archive present, and opens the archive path for
creation exactly once (lines 141-146). -/
theorem claim8_archive_replace (kit_code : String) :
    package_kit kit_code true =
      .ok ([ArchiveOp.unlink (archive_path kit_code),
            ArchiveOp.openCreate (archive_path kit_code),
            ArchiveOp.addDir kit_code kit_code, ArchiveOp.closeTar], true) ∧
    package_kit kit_code false =
      .ok ([ArchiveOp.openCreate (archive_path kit_code),
            ArchiveOp.addDir kit_code kit_code, ArchiveOp.closeTar], true) ∧
    ∀ preexisting : Bool,
      (archive_ops (package_kit kit_code preexisting)).countP is_open_create = 1 := by
  refine ⟨rfl, rfl, ?_⟩
  intro preexisting
  cases preexisting <;> rfl

/-- C9: the `i`-th instrument's manifest entry carries exactly the
attribute tags of `defaults.copy()` updated with that instrument's own
overrides — computed from the kit's original `default_attributes`, which
the loop never mutates, so no other instrument's overrides can leak
into it. -/
theorem claim9_defaults_not_mutated (cfg : Config) (tool : FfmpegCmd → Int)
    (i : Nat) (inst : Instrument) (hi : cfg.instruments[i]? = some inst) :
    ∃ node, (manifest_instruments (create_kit cfg tool).1)[i]? = some node ∧
      (node.children.drop 3).take (instrument_attributes cfg.default_attributes inst).length
        = set_instrument_attr (instrument_attributes cfg.default_attributes inst) := by
  obtain ⟨s2, hs⟩ := instruments_loop_getElem? tool ("media/" ++ cfg.kit_code ++ ".wav")
    cfg.default_attributes cfg.instruments 0 0 i inst hi
  rw [Nat.zero_add] at hs
  have hmi : manifest_instruments (create_kit cfg tool).1
      = (instruments_loop tool ("media/" ++ cfg.kit_code ++ ".wav")
          cfg.default_attributes 0 0 cfg.instruments).1 := rfl
  refine ⟨_, by rw [hmi]; exact hs, ?_⟩
  simp only [instrument_xml, XmlNode.children, List.append_assoc]
  rw [List.drop_left' (by rfl), List.take_left' (by simp [set_instrument_attr])]

def kick9 : Instrument :=
  { name := "kick", display := some "Kick", note := 36, length := 300,
    layers := [127], attributes := [("volume", "2.0")] }

def snare9 : Instrument :=
  { name := "snare", display := some "Snare", note := 38, length := 250,
    layers := [127], attributes := [] }

def cfg9 : Config :=
  { kit_code := "kit9", kit_name := "Kit 9", author := "", info := "",
    license := "", lincense := none, default_attributes := [("volume", "1.0")],
    instruments := [kick9, snare9] }

/-- Witness for C9: the first instrument overrides the default `volume`,
yet the second instrument's manifest attributes are computed from the
original default (`volume = 1.0`) — the override did not leak. -/
theorem claim9_witness :
    instrument_attributes cfg9.default_attributes snare9 = [("volume", "1.0")] ∧
    cfg9.instruments[1]? = some snare9 ∧
    ∃ node, (manifest_instruments (create_kit cfg9 (fun _ => 0)).1)[1]? = some node ∧
      (node.children.drop 3).take
          (instrument_attributes cfg9.default_attributes snare9).length
        = set_instrument_attr (instrument_attributes cfg9.default_attributes snare9) :=
  ⟨by decide, by decide,
    claim9_defaults_not_mutated cfg9 (fun _ => 0) 1 snare9 (by decide)⟩

/-- C10: when the configuration's instrument list is empty, the loop of
lines 46-60 never binds the variable `note`, so the trailing `note_off`
of line 61 raises `NameError` and no MIDI file is produced. -/
theorem claim10_empty_instruments_error (cfg : Config)
    (h : cfg.instruments = []) :
    create_midi cfg = .error "NameError: note is not defined" := by
  simp [create_midi, h, midi_instruments_loop]

def cfg10 : Config :=
  { kit_code := "kit10", kit_name := "Kit 10", author := "", info := "",
    license := "", lincense := none, default_attributes := [], instruments := [] }

/-- Witness for C10 at a concrete empty-instrument configuration. -/
theorem claim10_witness :
    cfg10.instruments = [] ∧
    create_midi cfg10 = .error "NameError: note is not defined" :=
  ⟨rfl, claim10_empty_instruments_error cfg10 rfl⟩

end KitConverter
